import Mathlib

/-!
Shallow embedding of the Design Placement & Compositing Engine of
`client/src/components/MultiShirtCanvas.tsx`.

Numbers that are JavaScript floats are modelled as exact rationals (ℚ);
the pipeline only multiplies, divides and compares, so ℚ mirrors the
real-number semantics the code intends, and "within floating-point
tolerance" becomes exact equality.  Component state (`useState` hooks)
is modelled as an explicit `EngineState` record, and each handler as a
function on it.
-/

namespace MockupApp

/-- A per-slot design offset `{ x, y }`. -/
structure DOffset where
  x : ℚ
  y : ℚ
deriving DecidableEq, Repr

/-- `ShirtConfig` from the source: a slot anchor plus its per-slot offset. -/
structure ShirtConfig where
  x : ℚ
  y : ℚ
  name : String
  index : Nat
  designOffset : DOffset
deriving DecidableEq, Repr

/-- `INITIAL_SHIRT_POSITIONS` from the source (8 slots, 2×4 grid). -/
def INITIAL_SHIRT_POSITIONS : List ShirtConfig :=
  [ { x := 500,  y := 750,  name := "White",   index := 0, designOffset := { x := 90,  y := -90 } },
    { x := 1500, y := 750,  name := "Ivory",   index := 1, designOffset := { x := 30,  y := -75 } },
    { x := 2500, y := 750,  name := "Butter",  index := 2, designOffset := { x := -45, y := -80 } },
    { x := 3500, y := 750,  name := "Banana",  index := 3, designOffset := { x := -90, y := -90 } },
    { x := 500,  y := 2250, name := "Mustard", index := 4, designOffset := { x := 95,  y := -160 } },
    { x := 1500, y := 2250, name := "Peachy",  index := 5, designOffset := { x := 30,  y := -180 } },
    { x := 2500, y := 2250, name := "Yam",     index := 6, designOffset := { x := -30, y := -170 } },
    { x := 3500, y := 2250, name := "Khaki",   index := 7, designOffset := { x := -95, y := -170 } } ]

/-- One entry of `DESIGN_PRESETS` (the name and footprint factors; the
descriptive strings are irrelevant to the geometry). -/
structure DesignPreset where
  name : String
  widthFactor : ℚ
  heightFactor : ℚ
deriving DecidableEq, Repr

/-- `DESIGN_PRESETS` from the source. -/
def DESIGN_PRESETS : List DesignPreset :=
  [ { name := "Wide Banner", widthFactor := 600, heightFactor := 200 },
    { name := "Landscape",   widthFactor := 500, heightFactor := 300 },
    { name := "Square",      widthFactor := 400, heightFactor := 400 },
    { name := "Portrait",    widthFactor := 300, heightFactor := 450 },
    { name := "Tall",        widthFactor := 250, heightFactor := 550 } ]

/-- A decoded image (`HTMLImageElement`): only its intrinsic pixel size
matters to the engine. -/
structure Img where
  width : ℚ
  height : ℚ
deriving DecidableEq, Repr

/-- `needle` occurs as a contiguous substring of the character list
(JavaScript `String.prototype.includes`). -/
def containsSub (needle : List Char) : List Char → Bool
  | [] => needle.isEmpty
  | c :: rest => needle.isPrefixOf (c :: rest) || containsSub needle rest

/-- The SVG detection shared by `drawDesignsOnShirts`, `drawDebugAreas`,
`handleDownload`, `calculateFileSize` and `autoPosition`:
`designImage?.toLowerCase().includes('.svg') ||
 designImage?.toLowerCase().startsWith('data:image/svg+xml')`. -/
def isSvgImage : Option String → Bool
  | none => false
  | some src =>
      let lower := src.data.map Char.toLower
      containsSub ".svg".data lower || List.isPrefixOf "data:image/svg+xml".data lower

/-- `getSelectedPresetIndex` from the source: bucket an aspect ratio into
one of the five preset indices. -/
def getSelectedPresetIndex (aspectRatio : ℚ) : Nat :=
  if aspectRatio > 2.0 then 0
  else if aspectRatio > 1.3 then 1
  else if aspectRatio >= 0.7 then 2
  else if aspectRatio >= 0.4 then 3
  else 4

/-- The per-class footprint ("area") computation of `drawDesignsOnShirts`
(lines 547–573): class multipliers on the width/height factors, then the
SVG scale factor, then the user size percentage. -/
def effectiveArea (aspectRatio : ℚ) (isSvg : Bool) (designSize W H : ℚ) : ℚ × ℚ :=
  let base : ℚ × ℚ :=
    if aspectRatio > 2.0 then (W, H / 2)
    else if aspectRatio > 1.3 then (W, H)
    else if aspectRatio < 0.7 then (W * 0.6, H * 1.5)
    else (W * 0.8, H * 1.2)
  let svgScaleFactor : ℚ := if isSvg then 1.5 else 1.0
  let scaled : ℚ × ℚ :=
    if isSvg then (base.1 * svgScaleFactor, base.2 * svgScaleFactor) else base
  (scaled.1 * (designSize / 100), scaled.2 * (designSize / 100))

/-- The aspect-preserving fit (lines 578–586): width-constrained when
`aspectRatio > areaWidth / areaHeight`, height-constrained otherwise. -/
def fitDims (aspectRatio areaWidth areaHeight : ℚ) : ℚ × ℚ :=
  if aspectRatio > areaWidth / areaHeight then
    (areaWidth, areaWidth / aspectRatio)
  else
    (areaHeight * aspectRatio, areaHeight)

/-- The rectangle a drawing call covers: `drawImage(img, left, top, width, height)`
or `strokeRect(left, top, width, height)`. -/
structure ComputedBox where
  left : ℚ
  top : ℚ
  width : ℚ
  height : ℚ
deriving DecidableEq, Repr

/-- The full per-slot geometry of `drawDesignsOnShirts` (lines 543–599):
footprint with class multipliers, SVG factor, size percentage, aspect fit,
then horizontal centering on the offset anchor and top-edge vertical
anchoring. -/
def computeBox (aspectRatio : ℚ) (isSvg : Bool) (designSize W H : ℚ)
    (shirt : ShirtConfig) (globalXOffset globalYOffset : ℚ) : ComputedBox :=
  let area := effectiveArea aspectRatio isSvg designSize W H
  let dims := fitDims aspectRatio area.1 area.2
  let designX := shirt.x + shirt.designOffset.x + globalXOffset
  let designY := shirt.y + shirt.designOffset.y + globalYOffset
  { left := designX - dims.1 / 2
    top := designY
    width := dims.1
    height := dims.2 }

/-- The per-slot geometry of `handleDownload`'s inner loop (lines 771–824),
kept as its own definition because the source duplicates the computation
rather than calling `drawDesignsOnShirts`. -/
def downloadBox (aspectRatio : ℚ) (isSvg : Bool) (designSize W H : ℚ)
    (shirt : ShirtConfig) (globalXOffset globalYOffset : ℚ) : ComputedBox :=
  let areaBase : ℚ × ℚ :=
    if aspectRatio > 2.0 then (W, H / 2)
    else if aspectRatio > 1.3 then (W, H)
    else if aspectRatio < 0.7 then (W * 0.6, H * 1.5)
    else (W * 0.8, H * 1.2)
  let svgScaleFactor : ℚ := if isSvg then 1.5 else 1.0
  let areaSvg : ℚ × ℚ :=
    if isSvg then (areaBase.1 * svgScaleFactor, areaBase.2 * svgScaleFactor) else areaBase
  let areaWidth := areaSvg.1 * (designSize / 100)
  let areaHeight := areaSvg.2 * (designSize / 100)
  let dims : ℚ × ℚ :=
    if aspectRatio > areaWidth / areaHeight then
      (areaWidth, areaWidth / aspectRatio)
    else
      (areaHeight * aspectRatio, areaHeight)
  let designX := shirt.x + shirt.designOffset.x + globalXOffset
  let designY := shirt.y + shirt.designOffset.y + globalYOffset
  { left := designX - dims.1 / 2
    top := designY
    width := dims.1
    height := dims.2 }

/-- The debug-area rectangle of `drawDebugAreas` (lines 621–667): same
footprint computation, but the raw area rectangle is stroked (no aspect
fit), centered on the offset anchor with top-edge anchoring. -/
def debugAreaRect (aspectRatio : ℚ) (isSvg : Bool) (designSize W H : ℚ)
    (shirt : ShirtConfig) (globalXOffset globalYOffset : ℚ) : ComputedBox :=
  let area := effectiveArea aspectRatio isSvg designSize W H
  let designX := shirt.x + shirt.designOffset.x + globalXOffset
  let designY := shirt.y + shirt.designOffset.y + globalYOffset
  { left := designX - area.1 / 2
    top := designY
    width := area.1
    height := area.2 }

/-- The mutable component state (`useState` hooks plus the `designImage`
and `designSize` props the geometry reads). -/
structure EngineState where
  designImage : Option String
  designImg : Option Img
  mockupImg : Bool
  canvasReady : Bool
  designSize : ℚ
  shirtConfigs : List ShirtConfig
  selectedShirt : Nat
  globalYOffset : ℚ
  globalXOffset : ℚ
  designWidthFactor : ℚ
  designHeightFactor : ℚ
  syncAll : Bool
  selectedPreset : Option Nat
  showDebugAreas : Bool
  jpegQuality : ℚ
  lastFileSize : Option ℚ
deriving DecidableEq, Repr

/-- The initial hook values: `INITIAL_SHIRT_POSITIONS`, `selectedShirt 0`,
`globalYOffset -200`, `globalXOffset 0`, factors `450×300`, `syncAll true`,
no preset, debug areas shown, JPEG quality 85. -/
def defaultState : EngineState :=
  { designImage := none
    designImg := none
    mockupImg := false
    canvasReady := true
    designSize := 100
    shirtConfigs := INITIAL_SHIRT_POSITIONS
    selectedShirt := 0
    globalYOffset := -200
    globalXOffset := 0
    designWidthFactor := 450
    designHeightFactor := 300
    syncAll := true
    selectedPreset := none
    showDebugAreas := true
    jpegQuality := 85
    lastFileSize := none }

/-- The list of boxes `drawDesignsOnShirts` draws: one `computeBox` per
entry of `shirtConfigs` (empty when no design is loaded). -/
def previewBoxes (s : EngineState) : List ComputedBox :=
  match s.designImg with
  | none => []
  | some img =>
      let aspectRatio := img.width / img.height
      let isSvg := isSvgImage s.designImage
      s.shirtConfigs.map fun shirt =>
        computeBox aspectRatio isSvg s.designSize s.designWidthFactor
          s.designHeightFactor shirt s.globalXOffset s.globalYOffset

/-- The list of boxes `handleDownload` draws on the off-screen canvas. -/
def exportBoxes (s : EngineState) : List ComputedBox :=
  match s.designImg with
  | none => []
  | some img =>
      let aspectRatio := img.width / img.height
      let isSvg := isSvgImage s.designImage
      s.shirtConfigs.map fun shirt =>
        downloadBox aspectRatio isSvg s.designSize s.designWidthFactor
          s.designHeightFactor shirt s.globalXOffset s.globalYOffset

/-- `updateShirtOffset`: replace one slot's `designOffset`, keeping the rest. -/
def updateShirtOffset (s : EngineState) (index : Nat) (xOffset yOffset : ℚ) : EngineState :=
  match s.shirtConfigs.get? index with
  | none => s
  | some c =>
      { s with shirtConfigs :=
          s.shirtConfigs.set index { c with designOffset := { x := xOffset, y := yOffset } } }

/-- `updateAllShirtsOffset`: broadcast one offset to every slot. -/
def updateAllShirtsOffset (s : EngineState) (xOffset yOffset : ℚ) : EngineState :=
  { s with shirtConfigs :=
      s.shirtConfigs.map fun shirt =>
        { shirt with designOffset := { x := xOffset, y := yOffset } } }

/-- `resetPositions`: restore the optimal defaults. -/
def resetPositions (s : EngineState) : EngineState :=
  { s with shirtConfigs := INITIAL_SHIRT_POSITIONS
           globalYOffset := -200
           designWidthFactor := 450
           designHeightFactor := 300
           selectedPreset := none }

/-- `Math.round` of JavaScript: `⌊q + 1/2⌋`, which is Mathlib's `round`. -/
def mathRound (q : ℚ) : ℚ := (round q : ℤ)

/-- `autoPosition` (lines 361–477): guard on a loaded design, reset the
slot table, then choose preset/factors/Y-offset from the aspect ratio,
shift 70px higher for SVG sources, and force sync-all. -/
def autoPosition (s : EngineState) : EngineState :=
  match s.designImg with
  | none => s
  | some img =>
      let s1 := { s with shirtConfigs := INITIAL_SHIRT_POSITIONS }
      let aspectRatio := img.width / img.height
      let isSvg := isSvgImage s.designImage
      let chosen : Option Nat × ℚ × ℚ × ℚ :=
        if aspectRatio > 2.0 then
          (some 0, (DESIGN_PRESETS.get ⟨0, by decide⟩).widthFactor,
            (DESIGN_PRESETS.get ⟨0, by decide⟩).heightFactor, -150)
        else if aspectRatio > 1.3 then
          (some 1, (DESIGN_PRESETS.get ⟨1, by decide⟩).widthFactor,
            (DESIGN_PRESETS.get ⟨1, by decide⟩).heightFactor, -180)
        else if aspectRatio >= 0.7 ∧ aspectRatio <= 1.3 then
          (some 2, (DESIGN_PRESETS.get ⟨2, by decide⟩).widthFactor,
            (DESIGN_PRESETS.get ⟨2, by decide⟩).heightFactor, -200)
        else if aspectRatio >= 0.4 ∧ aspectRatio < 0.7 then
          (some 2, mathRound ((DESIGN_PRESETS.get ⟨2, by decide⟩).widthFactor * 1.67),
            mathRound ((DESIGN_PRESETS.get ⟨2, by decide⟩).heightFactor * 0.67), -180)
        else
          (some 2, mathRound ((DESIGN_PRESETS.get ⟨2, by decide⟩).widthFactor * 1.9),
            mathRound ((DESIGN_PRESETS.get ⟨2, by decide⟩).heightFactor * 0.67), -180)
      let yOffset := if isSvg then chosen.2.2.2 - 70 else chosen.2.2.2
      { s1 with selectedPreset := chosen.1
                designWidthFactor := chosen.2.1
                designHeightFactor := chosen.2.2.1
                globalYOffset := yOffset
                syncAll := true }

/-- The parse outcome of the persisted `placementSettings` JSON string:
an empty/absent string, a string `JSON.parse` rejects, a JSON value that
is not an array, or an array of shirt configs. -/
inductive PlacementBlob where
  | empty : PlacementBlob
  | malformed : PlacementBlob
  | notArray : PlacementBlob
  | array : List ShirtConfig → PlacementBlob
deriving DecidableEq, Repr

/-- The serialized `PlacementSettings` record saved with a project; the
JSON string field is modelled by its parse outcome. -/
structure PlacementSettings where
  designWidthFactor : ℚ
  designHeightFactor : ℚ
  globalYOffset : ℚ
  placementSettings : PlacementBlob
deriving DecidableEq, Repr

/-- The `initialSettings` hydration effect (lines 231–255): copy the three
scalar fields, and adopt the parsed slot array only when it is an array of
length 8; any parse failure is caught and defaults kept. -/
def hydrateSettings (s : EngineState) (init : PlacementSettings) : EngineState :=
  let s1 := { s with designWidthFactor := init.designWidthFactor
                     designHeightFactor := init.designHeightFactor
                     globalYOffset := init.globalYOffset }
  match init.placementSettings with
  | .array parsed => if parsed.length = 8 then { s1 with shirtConfigs := parsed } else s1
  | _ => s1

/-- `saveSettings` (lines 964–995): guarded on a loaded design, serialize
the factors, the global Y offset and the JSON-stringified slot array.
`globalXOffset` is not part of the record. -/
def saveSettings (s : EngineState) : Option PlacementSettings :=
  if s.designImage.isNone then none
  else some { designWidthFactor := s.designWidthFactor
              designHeightFactor := s.designHeightFactor
              globalYOffset := s.globalYOffset
              placementSettings := .array s.shirtConfigs }

/-- One drawing command issued against a canvas context. -/
inductive DrawOp where
  | fillBackground : DrawOp
  | drawMockup : DrawOp
  | drawDesign : ComputedBox → DrawOp
  | anchorMarker : ℚ → ℚ → Bool → DrawOp
  | areaRect : ComputedBox → Bool → DrawOp
  | crosshair : ℚ → ℚ → DrawOp
  | textLabel : String → ℚ → ℚ → DrawOp
deriving DecidableEq, Repr

/-- Is the command a debug-overlay mark (anything `drawDebugAreas` emits)? -/
def DrawOp.isOverlay : DrawOp → Bool
  | .anchorMarker _ _ _ => true
  | .areaRect _ _ => true
  | .crosshair _ _ => true
  | .textLabel _ _ _ => true
  | _ => false

/-- The overlay commands of `drawDebugAreas` (lines 604–689): per slot, an
anchor marker, the (unfitted) area rectangle, a crosshair at the offset
anchor, a name label, and offset coordinates for the selected slot. -/
def debugOps (s : EngineState) : List DrawOp :=
  match s.designImg with
  | none => []
  | some img =>
      let aspectRatio := img.width / img.height
      let isSvg := isSvgImage s.designImage
      (s.shirtConfigs.enum.map fun p =>
        let shirt := p.2
        let isSelected := p.1 = s.selectedShirt
        let designX := shirt.x + shirt.designOffset.x + s.globalXOffset
        let designY := shirt.y + shirt.designOffset.y + s.globalYOffset
        [DrawOp.anchorMarker shirt.x shirt.y isSelected,
         DrawOp.areaRect (debugAreaRect aspectRatio isSvg s.designSize
           s.designWidthFactor s.designHeightFactor shirt s.globalXOffset s.globalYOffset)
           isSelected,
         DrawOp.crosshair designX designY,
         DrawOp.textLabel shirt.name (designX + 25) designY] ++
        (if isSelected then [DrawOp.textLabel "offsets" (designX + 25) (designY + 25)] else [])).flatten

/-- The preview render effect (lines 489–525): clear to white, draw the
mockup, draw the designs, then the debug overlay when enabled. -/
def renderPreview (s : EngineState) : List DrawOp :=
  [DrawOp.fillBackground] ++
    (if s.mockupImg then
      [DrawOp.drawMockup] ++
        (match s.designImg with
         | some _ => (previewBoxes s).map DrawOp.drawDesign
         | none => []) ++
        (if s.showDebugAreas then debugOps s else [])
    else [])

/-- The frame `handleDownload` paints on its fresh off-screen canvas
(lines 749–825): the mockup, then the designs, nothing else. -/
def exportFrame (s : EngineState) : List DrawOp :=
  [DrawOp.drawMockup] ++ (exportBoxes s).map DrawOp.drawDesign

/-- The outcome of `handleDownload`. -/
inductive DownloadOutcome where
  | errorNoDesign : DownloadOutcome
  | downloaded : List DrawOp → ℚ → DownloadOutcome
deriving DecidableEq, Repr

/-- `handleDownload` (lines 738–851): guarded no-op with an error toast
when the canvas, design or mockup is missing; otherwise paint the export
frame off-screen, encode at the JPEG quality and record the encoded size
(the encoder is external, so the resulting megabyte count is a
parameter). -/
def handleDownload (s : EngineState) (encodedSizeMB : ℚ) : DownloadOutcome × EngineState :=
  if !s.canvasReady || s.designImg.isNone || !s.mockupImg then
    (.errorNoDesign, s)
  else
    (.downloaded (exportFrame s) s.jpegQuality,
      { s with lastFileSize := some encodedSizeMB })

/-- A fresh engine started from hook defaults, given the same props
(design source, decoded images, size) as an existing session. -/
def freshEngineFor (s : EngineState) : EngineState :=
  { defaultState with designImage := s.designImage
                      designImg := s.designImg
                      mockupImg := s.mockupImg
                      canvasReady := s.canvasReady
                      designSize := s.designSize }

/-- Serialize the placement settings and hydrate a fresh engine from the
record (when nothing was serialized the fresh engine keeps its defaults). -/
def roundTrip (s : EngineState) : EngineState :=
  match saveSettings s with
  | some ps => hydrateSettings (freshEngineFor s) ps
  | none => freshEngineFor s

/-- The placement state `autoPosition` produces: selected preset, design
width/height factors, global Y offset, sync-all flag and slot table. -/
def placementOf (s : EngineState) : Option Nat × ℚ × ℚ × ℚ × Bool × List ShirtConfig :=
  (s.selectedPreset, s.designWidthFactor, s.designHeightFactor,
    s.globalYOffset, s.syncAll, s.shirtConfigs)

/-- A session with a square PNG design loaded and a nonzero global X
offset, otherwise at defaults. -/
def xOffsetState : EngineState :=
  { defaultState with designImage := some "art.png"
                      designImg := some { width := 800, height := 800 }
                      mockupImg := true
                      globalXOffset := 10 }

/-- A session with a square design loaded from a PNG source. -/
def pngSquareState : EngineState :=
  { defaultState with designImage := some "art.png"
                      designImg := some { width := 500, height := 500 } }

/-- The same session except the design source string names an SVG; the
decoded dimensions (hence the aspect ratio) are identical. -/
def svgSquareState : EngineState :=
  { defaultState with designImage := some "art.svg"
                      designImg := some { width := 500, height := 500 } }

/-- The first slot of the mockup. -/
def shirt0 : ShirtConfig :=
  { x := 500, y := 750, name := "White", index := 0, designOffset := { x := 90, y := -90 } }

/-! ## Helper lemmas -/

/-- Both components of the effective footprint are positive for positive
size percentage and footprint factors. -/
lemma effectiveArea_pos (r : ℚ) (isSvg : Bool) (size W H : ℚ)
    (hs : 0 < size) (hW : 0 < W) (hH : 0 < H) :
    0 < (effectiveArea r isSvg size W H).1 ∧ 0 < (effectiveArea r isSvg size W H).2 := by
  unfold effectiveArea
  split_ifs <;> cases isSvg <;> simp <;> constructor <;> positivity

/-- The fit step returns dimensions in the artwork's exact ratio. -/
lemma fitDims_ratio (r aW aH : ℚ) (haW : 0 < aW) (haH : 0 < aH) :
    (fitDims r aW aH).1 / (fitDims r aW aH).2 = r := by
  unfold fitDims
  split_ifs with h
  · simp only
    rw [div_div_eq_mul_div]
    exact mul_div_cancel_left₀ r (ne_of_gt haW)
  · simp only
    exact mul_div_cancel_left₀ r (ne_of_gt haH)

/-! ## Claims -/

/-- C1: for every artwork aspect ratio `r > 0`, positive size percentage and
footprint factors, and any slot and offsets, the computed box keeps the
artwork's exact width/height ratio; the fit is width-constrained
(`boxWidth` = scaled footprint width, `boxHeight = boxWidth / r`) exactly
when `r` exceeds the scaled footprint's own ratio, and height-constrained
(`boxHeight` = scaled footprint height, `boxWidth = boxHeight * r`)
otherwise, so the artwork is never stretched. -/
theorem computeBox_preserves_aspect (r : ℚ) (isSvg : Bool) (size W H : ℚ)
    (shirt : ShirtConfig) (gX gY : ℚ)
    (hr : 0 < r) (hs : 0 < size) (hW : 0 < W) (hH : 0 < H) :
    (computeBox r isSvg size W H shirt gX gY).width /
        (computeBox r isSvg size W H shirt gX gY).height = r ∧
    (r > (effectiveArea r isSvg size W H).1 / (effectiveArea r isSvg size W H).2 →
      (computeBox r isSvg size W H shirt gX gY).width = (effectiveArea r isSvg size W H).1 ∧
      (computeBox r isSvg size W H shirt gX gY).height =
        (computeBox r isSvg size W H shirt gX gY).width / r) ∧
    (¬ r > (effectiveArea r isSvg size W H).1 / (effectiveArea r isSvg size W H).2 →
      (computeBox r isSvg size W H shirt gX gY).height = (effectiveArea r isSvg size W H).2 ∧
      (computeBox r isSvg size W H shirt gX gY).width =
        (computeBox r isSvg size W H shirt gX gY).height * r) := by
  obtain ⟨h1, h2⟩ := effectiveArea_pos r isSvg size W H hs hW hH
  refine ⟨?_, ?_, ?_⟩
  · show (fitDims r _ _).1 / (fitDims r _ _).2 = r
    exact fitDims_ratio r _ _ h1 h2
  · intro hgt
    have hw : (computeBox r isSvg size W H shirt gX gY).width =
        (effectiveArea r isSvg size W H).1 := by
      show (fitDims r (effectiveArea r isSvg size W H).1
        (effectiveArea r isSvg size W H).2).1 = _
      unfold fitDims
      rw [if_pos hgt]
    have hh : (computeBox r isSvg size W H shirt gX gY).height =
        (effectiveArea r isSvg size W H).1 / r := by
      show (fitDims r (effectiveArea r isSvg size W H).1
        (effectiveArea r isSvg size W H).2).2 = _
      unfold fitDims
      rw [if_pos hgt]
    exact ⟨hw, by rw [hh, hw]⟩
  · intro hle
    have hh : (computeBox r isSvg size W H shirt gX gY).height =
        (effectiveArea r isSvg size W H).2 := by
      show (fitDims r (effectiveArea r isSvg size W H).1
        (effectiveArea r isSvg size W H).2).2 = _
      unfold fitDims
      rw [if_neg hle]
    have hw : (computeBox r isSvg size W H shirt gX gY).width =
        (effectiveArea r isSvg size W H).2 * r := by
      show (fitDims r (effectiveArea r isSvg size W H).1
        (effectiveArea r isSvg size W H).2).1 = _
      unfold fitDims
      rw [if_neg hle]
    exact ⟨hh, by rw [hw, hh]⟩

/-- C1 witness: a concrete instantiation (square artwork, defaults). -/
theorem computeBox_preserves_aspect_witness :
    (computeBox 1 false 100 450 300
        { x := 500, y := 750, name := "White", index := 0,
          designOffset := { x := 90, y := -90 } } 0 (-200)).width /
      (computeBox 1 false 100 450 300
        { x := 500, y := 750, name := "White", index := 0,
          designOffset := { x := 90, y := -90 } } 0 (-200)).height = 1 :=
  (computeBox_preserves_aspect 1 false 100 450 300
    { x := 500, y := 750, name := "White", index := 0,
      designOffset := { x := 90, y := -90 } } 0 (-200)
    (by norm_num) (by norm_num) (by norm_num) (by norm_num)).1

/-- C2: for every positive ratio, classification is total into the five
preset indices, the five ranges partition `(0, ∞)` exactly as stated, and
the boundary values 2.0, 1.3, 0.7, 0.4 land on landscape, square-ish,
square-ish and portrait respectively. -/
theorem classification_partition (r : ℚ) (hr : 0 < r) :
    getSelectedPresetIndex r ≤ 4 ∧
    (getSelectedPresetIndex r = 0 ↔ 2 < r) ∧
    (getSelectedPresetIndex r = 1 ↔ 1.3 < r ∧ r ≤ 2) ∧
    (getSelectedPresetIndex r = 2 ↔ 0.7 ≤ r ∧ r ≤ 1.3) ∧
    (getSelectedPresetIndex r = 3 ↔ 0.4 ≤ r ∧ r < 0.7) ∧
    (getSelectedPresetIndex r = 4 ↔ r < 0.4) ∧
    getSelectedPresetIndex 2 = 1 ∧ getSelectedPresetIndex 1.3 = 2 ∧
    getSelectedPresetIndex 0.7 = 2 ∧ getSelectedPresetIndex 0.4 = 3 := by
  refine ⟨?_, ?_, ?_, ?_, ?_, ?_, ?_, ?_, ?_, ?_⟩ <;>
    simp only [getSelectedPresetIndex] <;>
    split_ifs <;>
    norm_num at * <;>
    first
      | rfl
      | linarith
      | (constructor <;> linarith)
      | (intro h; linarith)

/-- C2 witness: the boundary value 2 classifies as landscape. -/
theorem classification_partition_witness : getSelectedPresetIndex 2 = 1 :=
  (classification_partition 2 (by norm_num)).2.2.2.2.2.2.1

/-- C7: every slot's box is horizontally centered on
`anchorX = slot.x + perSlotOffset.x + globalXOffset` and vertically
anchored by its top edge at `anchorY = slot.y + perSlotOffset.y +
globalYOffset` (top is the anchor itself, not a centered position). -/
theorem computeBox_anchoring (r : ℚ) (isSvg : Bool) (size W H : ℚ)
    (shirt : ShirtConfig) (gX gY : ℚ) :
    (computeBox r isSvg size W H shirt gX gY).left =
        (shirt.x + shirt.designOffset.x + gX) -
          (computeBox r isSvg size W H shirt gX gY).width / 2 ∧
    (computeBox r isSvg size W H shirt gX gY).top =
        shirt.y + shirt.designOffset.y + gY :=
  ⟨rfl, rfl⟩

/-- The duplicated per-slot geometry of `handleDownload` computes exactly
the boxes `drawDesignsOnShirts` computes. -/
lemma downloadBox_eq_computeBox (r : ℚ) (isSvg : Bool) (size W H : ℚ)
    (shirt : ShirtConfig) (gX gY : ℚ) :
    downloadBox r isSvg size W H shirt gX gY = computeBox r isSvg size W H shirt gX gY := rfl

/-- The export pass draws the same box list as the preview pass. -/
lemma exportBoxes_eq_previewBoxes (s : EngineState) : exportBoxes s = previewBoxes s := by
  unfold exportBoxes previewBoxes
  cases s.designImg with
  | none => rfl
  | some img => simp [downloadBox_eq_computeBox]

/-- The preview box list ignores the overlay toggle. -/
lemma previewBoxes_debug_toggle (s : EngineState) (b : Bool) :
    previewBoxes { s with showDebugAreas := b } = previewBoxes s := rfl

/-- With mockup and design loaded and the overlay disabled, the preview
render is the background clear, the mockup, then the design boxes. -/
lemma renderPreview_overlay_off (s : EngineState) (img : Img)
    (hm : s.mockupImg = true) (hd : s.designImg = some img)
    (hdbg : s.showDebugAreas = false) :
    renderPreview s =
      DrawOp.fillBackground :: DrawOp.drawMockup ::
        (previewBoxes s).map DrawOp.drawDesign := by
  unfold renderPreview
  rw [if_pos hm, hdbg, hd]
  simp

/-- C5: with artwork and mockup loaded, the export pipeline's frame (on a
fresh surface) consists of the mockup background followed by exactly the
per-slot design boxes of the preview pass, it contains no overlay mark,
and the preview render with the debug overlay disabled issues the same
mockup-then-designs sequence (after its background clear, which the
full-canvas mockup draw covers). -/
theorem export_matches_overlay_free_preview (s : EngineState) (img : Img)
    (hm : s.mockupImg = true) (hd : s.designImg = some img) :
    exportFrame s = DrawOp.drawMockup :: (previewBoxes s).map DrawOp.drawDesign ∧
    renderPreview { s with showDebugAreas := false } =
      DrawOp.fillBackground :: DrawOp.drawMockup ::
        (previewBoxes s).map DrawOp.drawDesign ∧
    ∀ op ∈ exportFrame s, op.isOverlay = false := by
  refine ⟨?_, ?_, ?_⟩
  · unfold exportFrame
    rw [exportBoxes_eq_previewBoxes]
    rfl
  · rw [renderPreview_overlay_off { s with showDebugAreas := false } img hm hd rfl,
      previewBoxes_debug_toggle]
  · intro op hop
    unfold exportFrame at hop
    simp only [List.cons_append, List.nil_append, List.mem_cons, List.mem_map] at hop
    rcases hop with h | ⟨b, _, hb⟩
    · rw [h]; rfl
    · rw [← hb]; rfl

/-- C5 witness: a concrete state with both images loaded. -/
theorem export_matches_overlay_free_preview_witness :
    exportFrame { pngSquareState with mockupImg := true } =
      DrawOp.drawMockup ::
        (previewBoxes { pngSquareState with mockupImg := true }).map DrawOp.drawDesign :=
  (export_matches_overlay_free_preview { pngSquareState with mockupImg := true }
    { width := 500, height := 500 } rfl rfl).1

/-- C8: invoking the download handler with no artwork loaded yields the
recoverable "nothing to export" outcome — no frame is produced and the
engine state is returned unchanged (and, being a total function, it never
throws). -/
theorem download_without_artwork_is_noop (s : EngineState) (encodedSizeMB : ℚ)
    (h : s.designImg = none) :
    handleDownload s encodedSizeMB = (DownloadOutcome.errorNoDesign, s) := by
  unfold handleDownload
  rw [h]
  simp

/-- C8 witness: the default state has no artwork. -/
theorem download_without_artwork_is_noop_witness :
    handleDownload defaultState 0 = (DownloadOutcome.errorNoDesign, defaultState) :=
  download_without_artwork_is_noop defaultState 0 rfl

/-- C9: the slot table always has 8 entries: initially, after single-slot
and broadcast offset writes, after reset and auto-position, and after
hydration from any persisted blob (absent, malformed, non-array or
wrong-length blobs fall back without throwing). -/
theorem perSlotOffset_length_invariant :
    INITIAL_SHIRT_POSITIONS.length = 8 ∧
    defaultState.shirtConfigs.length = 8 ∧
    (∀ s i x y, (updateShirtOffset s i x y).shirtConfigs.length = s.shirtConfigs.length) ∧
    (∀ s x y, (updateAllShirtsOffset s x y).shirtConfigs.length = s.shirtConfigs.length) ∧
    (∀ s, (resetPositions s).shirtConfigs.length = 8) ∧
    (∀ s, s.shirtConfigs.length = 8 → (autoPosition s).shirtConfigs.length = 8) ∧
    (∀ s init, s.shirtConfigs.length = 8 →
      (hydrateSettings s init).shirtConfigs.length = 8) := by
  refine ⟨rfl, rfl, ?_, ?_, ?_, ?_, ?_⟩
  · intro s i x y
    unfold updateShirtOffset
    cases h : s.shirtConfigs.get? i <;> simp
  · intro s x y
    simp [updateAllShirtsOffset]
  · intro s
    rfl
  · intro s h
    unfold autoPosition
    cases hd : s.designImg
    · exact h
    · rfl
  · intro s init h
    unfold hydrateSettings
    cases hb : init.placementSettings <;> try exact h
    dsimp only
    split_ifs with hl
    · exact hl
    · exact h

/-- C9 witness: hydrating the default state from a malformed blob keeps 8 slots. -/
theorem perSlotOffset_length_invariant_witness :
    (hydrateSettings defaultState
      { designWidthFactor := 450, designHeightFactor := 300,
        globalYOffset := -200, placementSettings := .malformed }).shirtConfigs.length = 8 :=
  perSlotOffset_length_invariant.2.2.2.2.2.2 defaultState
    { designWidthFactor := 450, designHeightFactor := 300,
      globalYOffset := -200, placementSettings := .malformed } rfl

/-- The SVG factor scales the effective footprint width by exactly 3/2. -/
lemma effectiveArea_svg_fst (r size W H : ℚ) :
    (effectiveArea r true size W H).1 = 3 / 2 * (effectiveArea r false size W H).1 := by
  unfold effectiveArea
  simp only [Bool.false_eq_true, if_true, if_false, ite_true, ite_false]
  ring

/-- The SVG factor scales the effective footprint height by exactly 3/2. -/
lemma effectiveArea_svg_snd (r size W H : ℚ) :
    (effectiveArea r true size W H).2 = 3 / 2 * (effectiveArea r false size W H).2 := by
  unfold effectiveArea
  simp only [Bool.false_eq_true, if_true, if_false, ite_true, ite_false]
  ring

/-- Scaling both footprint dimensions by 3/2 scales both fitted
dimensions by 3/2. -/
lemma fitDims_smul (r a b : ℚ) :
    fitDims r (3 / 2 * a) (3 / 2 * b) =
      (3 / 2 * (fitDims r a b).1, 3 / 2 * (fitDims r a b).2) := by
  unfold fitDims
  rw [mul_div_mul_left a b (by norm_num : (3 / 2 : ℚ) ≠ 0)]
  split_ifs with h
  · rw [mul_div_assoc]
  · rw [mul_assoc]

/-- C3 counterexample: a state differing from the defaults only by a
loaded design and a nonzero global X offset does not survive the
serialize-and-hydrate round trip — the record has no X-offset field, so
the hydrated engine computes different boxes. -/
theorem roundTrip_drops_globalXOffset :
    previewBoxes (roundTrip xOffsetState) ≠ previewBoxes xOffsetState := by
  have ha : (previewBoxes (roundTrip xOffsetState)).head? =
      some { left := 410, top := 460, width := 360, height := 360 } := by
    norm_num [roundTrip, saveSettings, hydrateSettings, freshEngineFor, xOffsetState,
      defaultState, previewBoxes, computeBox, effectiveArea, fitDims,
      INITIAL_SHIRT_POSITIONS,
      (show isSvgImage (some "art.png") = false by decide)]
  have hb : (previewBoxes xOffsetState).head? =
      some { left := 420, top := 460, width := 360, height := 360 } := by
    norm_num [xOffsetState, defaultState, previewBoxes, computeBox, effectiveArea,
      fitDims, INITIAL_SHIRT_POSITIONS,
      (show isSvgImage (some "art.png") = false by decide)]
  intro hEq
  rw [hEq, hb] at ha
  norm_num [ComputedBox.mk.injEq] at ha

/-- C3 amended: for sessions whose global X offset is still the default 0
(the only X offset a hydrated engine can have, since the record does not
store it) and whose slot table has the full 8 entries, serializing and
hydrating a fresh engine reproduces every slot's ComputedBox. -/
theorem roundTrip_preserves_boxes (s : EngineState)
    (hx : s.globalXOffset = 0) (hn : s.shirtConfigs.length = 8)
    (hi : s.designImage.isSome = true) :
    previewBoxes (roundTrip s) = previewBoxes s := by
  obtain ⟨src, hsrc⟩ := Option.isSome_iff_exists.mp hi
  have hrt : roundTrip s =
      hydrateSettings (freshEngineFor s)
        { designWidthFactor := s.designWidthFactor
          designHeightFactor := s.designHeightFactor
          globalYOffset := s.globalYOffset
          placementSettings := .array s.shirtConfigs } := by
    unfold roundTrip saveSettings
    rw [hsrc]
    rfl
  have hhy : hydrateSettings (freshEngineFor s)
        { designWidthFactor := s.designWidthFactor
          designHeightFactor := s.designHeightFactor
          globalYOffset := s.globalYOffset
          placementSettings := .array s.shirtConfigs } =
      { freshEngineFor s with designWidthFactor := s.designWidthFactor
                              designHeightFactor := s.designHeightFactor
                              globalYOffset := s.globalYOffset
                              shirtConfigs := s.shirtConfigs } := by
    unfold hydrateSettings
    dsimp only
    rw [if_pos hn]
  rw [hrt, hhy]
  unfold previewBoxes freshEngineFor defaultState
  dsimp only
  cases himg : s.designImg with
  | none => rfl
  | some img =>
      dsimp only
      rw [hx]

/-- C3 amended witness: a default-offset session round-trips exactly. -/
theorem roundTrip_preserves_boxes_witness :
    previewBoxes (roundTrip pngSquareState) = previewBoxes pngSquareState :=
  roundTrip_preserves_boxes pngSquareState rfl rfl rfl

/-- C4 counterexample: two loaded artworks with identical decoded
dimensions (hence equal aspect ratio) and identical prior placement
state, one named `art.png` and one `art.svg`, give different
auto-position results: the SVG source lands 70px higher. -/
theorem autoPosition_reads_source_string :
    pngSquareState.designImg = svgSquareState.designImg ∧
    placementOf pngSquareState = placementOf svgSquareState ∧
    (autoPosition pngSquareState).globalYOffset = -200 ∧
    (autoPosition svgSquareState).globalYOffset = -270 := by
  refine ⟨rfl, rfl, ?_, ?_⟩
  · norm_num [autoPosition, pngSquareState, defaultState, DESIGN_PRESETS, mathRound,
      (show isSvgImage (some "art.png") = false by decide)]
  · norm_num [autoPosition, svgSquareState, defaultState, DESIGN_PRESETS, mathRound,
      (show isSvgImage (some "art.svg") = true by decide)]

/-- C4 amended: auto-position is a deterministic function of the
artwork's aspect ratio together with the SVG-ness of its source string:
from the same prior state, any two artworks with equal ratio and equal
`isSvgImage` flag produce identical placement state (selected preset,
width/height factors, global Y offset, sync-all flag, slot table). -/
theorem autoPosition_deterministic_in_ratio_and_svg (s : EngineState)
    (img1 img2 : Img) (src1 src2 : Option String)
    (hr : img1.width / img1.height = img2.width / img2.height)
    (hsvg : isSvgImage src1 = isSvgImage src2) :
    placementOf (autoPosition { s with designImg := some img1, designImage := src1 }) =
      placementOf (autoPosition { s with designImg := some img2, designImage := src2 }) := by
  unfold autoPosition placementOf
  dsimp only
  rw [hr, hsvg]

/-- C4 amended witness: two PNG artworks of different sizes but equal
ratio auto-position identically. -/
theorem autoPosition_deterministic_witness :
    placementOf (autoPosition { defaultState with
        designImg := some { width := 500, height := 500 },
        designImage := some "a.png" }) =
      placementOf (autoPosition { defaultState with
        designImg := some { width := 1000, height := 1000 },
        designImage := some "b.png" }) :=
  autoPosition_deterministic_in_ratio_and_svg defaultState
    { width := 500, height := 500 } { width := 1000, height := 1000 }
    (some "a.png") (some "b.png") (by norm_num) (by decide)

/-- C6 counterexample: for a 1600×400 artwork (ratio 4.0) with the
Wide-Banner preset footprint 600×200 at 100% size, the drawn box is not
width-constrained: its width is 400, not the effective footprint width
600, because the very-wide class halves the footprint height (600×100,
ratio 6.0 > 4.0) and the fit takes the height-constrained branch. -/
theorem wide_banner_not_width_constrained :
    (computeBox (1600 / 400) false 100 600 200 shirt0 0 (-150)).width ≠
      (effectiveArea (1600 / 400) false 100 600 200).1 ∧
    ¬ (1600 / 400 : ℚ) >
      (effectiveArea (1600 / 400) false 100 600 200).1 /
        (effectiveArea (1600 / 400) false 100 600 200).2 := by
  constructor
  · norm_num [computeBox, effectiveArea, fitDims, shirt0]
  · norm_num [effectiveArea]

/-- C6 amended: a 1600×400 artwork is classified very-wide (preset 0,
whose table footprint is 600×200); the very-wide class halves the
footprint height, so the effective footprint at 100% size is 600×100 and
the box is height-constrained: boxHeight = 100 (the effective footprint
height) and boxWidth = boxHeight × 4.0 = 400. -/
theorem wide_banner_scenario :
    getSelectedPresetIndex (1600 / 400) = 0 ∧
    (DESIGN_PRESETS.get ⟨0, by decide⟩).widthFactor = 600 ∧
    (DESIGN_PRESETS.get ⟨0, by decide⟩).heightFactor = 200 ∧
    effectiveArea (1600 / 400) false 100 600 200 = (600, 100) ∧
    (computeBox (1600 / 400) false 100 600 200 shirt0 0 (-150)).height =
      (effectiveArea (1600 / 400) false 100 600 200).2 ∧
    (computeBox (1600 / 400) false 100 600 200 shirt0 0 (-150)).width = 400 ∧
    (computeBox (1600 / 400) false 100 600 200 shirt0 0 (-150)).height = 100 ∧
    (computeBox (1600 / 400) false 100 600 200 shirt0 0 (-150)).width =
      (computeBox (1600 / 400) false 100 600 200 shirt0 0 (-150)).height * (1600 / 400) := by
  refine ⟨?_, rfl, rfl, ?_, ?_, ?_, ?_, ?_⟩ <;>
    norm_num [getSelectedPresetIndex, computeBox, effectiveArea, fitDims, shirt0]

/-- C10: in all three render paths (preview compositing, export, debug
overlay geometry) an SVG-detected source scales the footprint, and hence
the resulting box dimensions, by exactly 3/2 relative to the same
non-SVG state, the factor being applied before size-percent scaling and
aspect fitting; auto-position additionally places SVG sources 70px
higher; and the shared detection fires on sources containing `.svg`
(case-insensitively) or starting with `data:image/svg+xml`. -/
theorem svg_uniform_scaling (r size W H : ℚ) (shirt : ShirtConfig)
    (gX gY : ℚ) (s : EngineState) (img : Img) :
    (computeBox r true size W H shirt gX gY).width =
        3 / 2 * (computeBox r false size W H shirt gX gY).width ∧
    (computeBox r true size W H shirt gX gY).height =
        3 / 2 * (computeBox r false size W H shirt gX gY).height ∧
    (downloadBox r true size W H shirt gX gY).width =
        3 / 2 * (downloadBox r false size W H shirt gX gY).width ∧
    (downloadBox r true size W H shirt gX gY).height =
        3 / 2 * (downloadBox r false size W H shirt gX gY).height ∧
    (debugAreaRect r true size W H shirt gX gY).width =
        3 / 2 * (debugAreaRect r false size W H shirt gX gY).width ∧
    (debugAreaRect r true size W H shirt gX gY).height =
        3 / 2 * (debugAreaRect r false size W H shirt gX gY).height ∧
    effectiveArea r true size W H =
        (3 / 2 * (effectiveArea r false size W H).1,
          3 / 2 * (effectiveArea r false size W H).2) ∧
    (autoPosition { s with designImg := some img, designImage := some "design.svg" }).globalYOffset =
      (autoPosition { s with designImg := some img, designImage := some "design.png" }).globalYOffset - 70 ∧
    isSvgImage (some "design.svg") = true ∧
    isSvgImage (some "DESIGN.SVG") = true ∧
    isSvgImage (some "data:image/svg+xml;base64,AAA") = true ∧
    isSvgImage (some "design.png") = false := by
  have hw : (computeBox r true size W H shirt gX gY).width =
      3 / 2 * (computeBox r false size W H shirt gX gY).width := by
    show (fitDims r (effectiveArea r true size W H).1
      (effectiveArea r true size W H).2).1 = _
    rw [effectiveArea_svg_fst, effectiveArea_svg_snd, fitDims_smul]
    rfl
  have hh : (computeBox r true size W H shirt gX gY).height =
      3 / 2 * (computeBox r false size W H shirt gX gY).height := by
    show (fitDims r (effectiveArea r true size W H).1
      (effectiveArea r true size W H).2).2 = _
    rw [effectiveArea_svg_fst, effectiveArea_svg_snd, fitDims_smul]
    rfl
  refine ⟨hw, hh, ?_, ?_, ?_, ?_, ?_, ?_, by decide, by decide, by decide, by decide⟩
  · rw [downloadBox_eq_computeBox, downloadBox_eq_computeBox]; exact hw
  · rw [downloadBox_eq_computeBox, downloadBox_eq_computeBox]; exact hh
  · exact effectiveArea_svg_fst r size W H
  · exact effectiveArea_svg_snd r size W H
  · rw [Prod.ext_iff]
    exact ⟨effectiveArea_svg_fst r size W H, effectiveArea_svg_snd r size W H⟩
  · unfold autoPosition
    dsimp only
    rw [(show isSvgImage (some "design.svg") = true by decide),
      (show isSvgImage (some "design.png") = false by decide)]
    simp

end MockupApp
